import Mathlib

/-!
Shallow embedding of the `genshin_farmer` repository (sources:
`src/id_translations.py`, `src/fetch_player_info_direct.py`,
`src/character_gear_table.py`) and proofs about the claims of its
specification.

Modelling conventions:
* Python `int` is `Int`; Python `float` values are idealised as exact decimal
  numbers `mant / 10 ^ exp` (`PyFloat`), which matches the JSON decimal
  literals the program consumes; `f"{v:.1f}"` / `f"{v:.0f}"` round half to
  even, as Python does on the represented value.
* Python `dict` is an insertion-ordered association list; `d.get`, `d[k] = v`
  and `in` are `dictGet`, `dictSet` and lookup on it, mirroring Python's
  key-equality semantics.
* Python `list.sort(key=...)` (Timsort) is a stable sort by the key; it is
  embedded as a stable insertion sort `sortByKey`, which produces the same
  list as any stable sort by the same key.
* The pydantic models are Lean structures; pydantic validation of the
  `Equipment` subtree is embedded as total functions `Json → Except String _`
  that require declared fields with their declared primitive types, treat
  `Optional[...]` fields as `none` when absent or `null`, ignore unknown
  fields, and resolve `Union[ReliquaryFlat, WeaponFlat]` by trying the
  left member first (pydantic tries union members in order and keeps the
  first that validates).
-/

/-! ### Generic Python-style helpers -/

/-- Lookup in an insertion-ordered dict (association list); keys in the
literal dicts of the source are pairwise distinct, so first match equals
Python's lookup. -/
def dictGet {κ α : Type} [DecidableEq κ] : List (κ × α) → κ → Option α
  | [], _ => none
  | (k, v) :: rest, key => if k = key then some v else dictGet rest key

/-- Python `d[key] = val`: replace in place when the key is present (keeping
its position), append otherwise. -/
def dictSet {κ α : Type} [DecidableEq κ] : List (κ × α) → κ → α → List (κ × α)
  | [], key, val => [(key, val)]
  | (k, v) :: rest, key, val =>
    if k = key then (key, val) :: rest else (k, v) :: dictSet rest key val

/-- ASCII lower-casing of one character (Python `str.lower` on the ASCII
strings this program handles). -/
def lowerChar (c : Char) : Char :=
  if 'A' ≤ c ∧ c ≤ 'Z' then Char.ofNat (c.toNat + 32) else c

/-- ASCII upper-casing of one character. -/
def upperChar (c : Char) : Char :=
  if 'a' ≤ c ∧ c ≤ 'z' then Char.ofNat (c.toNat - 32) else c

/-- Python `str.lower` (ASCII). -/
def pyLower (s : String) : String := ⟨s.data.map lowerChar⟩

def isAsciiLetter (c : Char) : Bool :=
  ('a' ≤ c ∧ c ≤ 'z') ∨ ('A' ≤ c ∧ c ≤ 'Z')

/-- Worker for Python `str.title`: a cased character starting a run of cased
characters is upper-cased, later cased characters of the run are
lower-cased. -/
def titleAux : Bool → List Char → List Char
  | _, [] => []
  | prevCased, c :: cs =>
    if isAsciiLetter c then
      (if prevCased then lowerChar c else upperChar c) :: titleAux true cs
    else
      c :: titleAux false cs

/-- Python `str.title` (ASCII). -/
def pyTitle (s : String) : String := ⟨titleAux false s.data⟩

def strStartsWith (s p : String) : Bool := p.data.isPrefixOf s.data

/-- Worker for Python `str.replace`: scan left to right, replace each
non-overlapping occurrence of `pat`, never re-scanning the replacement.
The fuel is the input length; each step consumes at least one character. -/
def replaceAux (pat rep : List Char) : Nat → List Char → List Char
  | _, [] => []
  | 0, s => s
  | fuel + 1, c :: cs =>
    if pat.isPrefixOf (c :: cs) then
      rep ++ replaceAux pat rep fuel (List.drop pat.length (c :: cs))
    else
      c :: replaceAux pat rep fuel cs

/-- Python `s.replace(pat, rep)` for a non-empty pattern (all patterns in the
source are non-empty). -/
def pyReplace (s pat rep : String) : String :=
  if pat.data.isEmpty then s else ⟨replaceAux pat.data rep.data s.data.length s.data⟩

def digitChar : Nat → Char
  | 0 => '0' | 1 => '1' | 2 => '2' | 3 => '3' | 4 => '4'
  | 5 => '5' | 6 => '6' | 7 => '7' | 8 => '8' | _ => '9'

/-- Decimal digits of a natural number, most significant first, with fuel. -/
def natDigits : Nat → Nat → List Char
  | 0, _ => []
  | fuel + 1, n => if n < 10 then [digitChar n] else natDigits fuel (n / 10) ++ [digitChar (n % 10)]

/-- Decimal string of a natural number (`str(n)` for `n ≥ 0`). -/
def natStr (n : Nat) : String := ⟨natDigits (n + 1) n⟩

/-- Decimal string of an integer (`str(n)`). -/
def intStr (i : Int) : String := if i < 0 then "-" ++ natStr i.natAbs else natStr i.natAbs

/-- Round `v / d` half to even (the rounding that Python's string formatting
applies to the represented value). -/
def rheNat (v d : Nat) : Nat :=
  let n := v / d
  let r2 := 2 * (v % d)
  if r2 < d then n else if d < r2 then n + 1 else if n % 2 = 0 then n else n + 1

/-! ### Numbers: the int-or-float stat value union -/

/-- A Python float idealised as the exact decimal number `mant / 10 ^ exp`
(the JSON decimal literal the program receives). -/
structure PyFloat where
  mant : Int
  exp : Nat
deriving DecidableEq

/-- `f < k` for an integer bound `k` (the only float comparison the source
performs is `stat_value < 100`). -/
def PyFloat.ltInt (f : PyFloat) (k : Int) : Bool :=
  f.mant < k * (10 : Int) ^ f.exp

/-- Python `f"{v:.1f}"` on a float. -/
def fmt1 (f : PyFloat) : String :=
  let d := (10 : Nat) ^ f.exp
  let m := rheNat (f.mant.natAbs * 10) d
  (if f.mant < 0 then "-" else "") ++ natStr (m / 10) ++ "." ++ natStr (m % 10)

/-- Python `f"{v:.0f}"` on a float. -/
def fmt0 (f : PyFloat) : String :=
  (if f.mant < 0 then "-" else "") ++ natStr (rheNat f.mant.natAbs ((10 : Nat) ^ f.exp))

/-- The `Union[int, float]` stat values of the pydantic models; the source
representation (int versus float) is preserved, as the formatting logic
depends on it. -/
inductive StatValue where
  | int (n : Int)
  | float (f : PyFloat)
deriving DecidableEq

/-- The stat display idiom of `fetch_player_info_direct.py` lines 231-235
(also 242-247 and 258-263): percentages with one decimal for floats below
100, otherwise `:.0f`. -/
def statDisplay : StatValue → String
  | .float f => if f.ltInt 100 then fmt1 f ++ "%" else fmt0 f
  | .int n => intStr n

/-- The stat cell idiom of `character_gear_table.py` lines 83-87 and 94-98:
`f"{stat_name} {stat_value:.1f}%"` for floats below 100, else
`f"{stat_name} {stat_value:.0f}"`. -/
def fmtStatCell (statName : String) (v : StatValue) : String :=
  match v with
  | .float f =>
    if f.ltInt 100 then statName ++ " " ++ fmt1 f ++ "%" else statName ++ " " ++ fmt0 f
  | .int n => statName ++ " " ++ intStr n

/-! ### `id_translations.py` -/

def CHARACTER_NAMES : List (Int × String) :=
  [(10000025, "Xingqiu"), (10000030, "Zhongli"), (10000031, "Fischl"),
   (10000046, "Hutao"), (10000047, "Kazuha"), (10000060, "Yelan"),
   (10000073, "Nahida"), (10000082, "Baizhu"), (10000087, "Neuvillette"),
   (10000089, "Furina"), (10000103, "Xilonen"), (10000123, "Durin")]

def ARTIFACT_SETS : List (Int × String) :=
  [(15001, "Gladiator's Finale"), (15002, "Deepwood Memories"),
   (15003, "Gilded Dreams"), (15006, "Crimson Witch of Flames"),
   (15007, "Shimenawa's Reminiscence"), (15017, "Tenacity of the Millelith"),
   (15019, "Pale Flame"), (15020, "Heart of Depth"),
   (15025, "Vourukasha's Glow"), (15026, "Nighttime Whispers in the Echoing Woods"),
   (15028, "Song of Days Past"), (15031, "Marechaussee Hunter"),
   (15032, "Golden Troupe"), (15037, "Fragment of Harmonic Whimsy")]

def WEAPON_NAMES : List (Int × String) :=
  [(11401, "Favonius Sword"), (11403, "Sacrificial Sword"), (11422, "Lion's Roar"),
   (11424, "The Flute"), (11426, "Iron Sting"), (13303, "Sacrificial Lance"),
   (13501, "Staff of Homa"), (14403, "Sacrificial Fragments"),
   (14406, "Prototype Amber"), (14424, "The Widsith"),
   (15401, "Favonius Warbow"), (15409, "The Viridescent Hunt")]

def FIGHT_PROP_NAMES : List (String × String) :=
  [("1", "HP"), ("2", "ATK"), ("3", "DEF"), ("4", "HP%"), ("5", "ATK%"),
   ("6", "DEF%"), ("7", "Elemental Mastery"), ("8", "Energy Recharge"),
   ("9", "CRIT Rate"), ("20", "CRIT DMG"), ("22", "Healing Bonus"),
   ("23", "Incoming Healing Bonus"), ("26", "Elemental DMG Bonus"),
   ("27", "Physical DMG Bonus"), ("28", "Elemental Mastery"),
   ("40", "Pyro DMG Bonus"), ("41", "Electro DMG Bonus"), ("42", "Hydro DMG Bonus"),
   ("43", "Dendro DMG Bonus"), ("44", "Anemo DMG Bonus"), ("45", "Geo DMG Bonus"),
   ("46", "Cryo DMG Bonus"), ("50", "Pyro RES"), ("51", "Electro RES"),
   ("52", "Hydro RES"), ("53", "Dendro RES"), ("54", "Anemo RES"),
   ("55", "Geo RES"), ("56", "Cryo RES")]

def MAIN_PROP_NAMES : List (Int × String) :=
  [(14001, "HP"), (12001, "ATK"), (10001, "DEF"), (10002, "HP%"), (10003, "ATK%"),
   (10004, "DEF%"), (10005, "Elemental Mastery"), (10006, "DEF%"),
   (10007, "Energy Recharge"), (10008, "Elemental Mastery"),
   (13001, "CRIT Rate"), (13002, "CRIT DMG"), (13003, "Healing Bonus"),
   (13007, "CRIT Rate"), (13008, "CRIT DMG"), (13010, "Elemental Mastery"),
   (15001, "Pyro DMG Bonus"), (15002, "Electro DMG Bonus"), (15003, "Hydro DMG Bonus"),
   (15004, "Dendro DMG Bonus"), (15005, "Anemo DMG Bonus"), (15006, "Geo DMG Bonus"),
   (15007, "Cryo DMG Bonus"), (15008, "Pyro DMG Bonus"), (15009, "Electro DMG Bonus"),
   (15011, "Hydro DMG Bonus"), (15014, "Dendro DMG Bonus")]

def ELEMENTAL_DMG_BONUS : List (Int × String) :=
  [(15001, "Pyro DMG Bonus"), (15002, "Electro DMG Bonus"), (15003, "Hydro DMG Bonus"),
   (15004, "Dendro DMG Bonus"), (15005, "Anemo DMG Bonus"), (15006, "Geo DMG Bonus"),
   (15007, "Cryo DMG Bonus"), (15008, "Pyro DMG Bonus"), (15009, "Electro DMG Bonus"),
   (15011, "Hydro DMG Bonus"), (15014, "Dendro DMG Bonus")]

/-- `get_character_name` (`id_translations.py` lines 140-142). -/
def get_character_name (avatar_id : Int) : String :=
  (dictGet CHARACTER_NAMES avatar_id).getD ("Character " ++ toString avatar_id)

/-- `get_artifact_set_name` (lines 145-147). -/
def get_artifact_set_name (set_id : Int) : String :=
  (dictGet ARTIFACT_SETS set_id).getD ("Set " ++ toString set_id)

/-- `get_fight_prop_name` (lines 150-152). -/
def get_fight_prop_name (prop_key : String) : String :=
  (dictGet FIGHT_PROP_NAMES prop_key).getD ("Prop " ++ prop_key)

/-- `get_main_prop_name` (lines 155-160): checks `ELEMENTAL_DMG_BONUS` first,
then falls back to `MAIN_PROP_NAMES.get`. -/
def get_main_prop_name (prop_id : Int) : String :=
  match dictGet ELEMENTAL_DMG_BONUS prop_id with
  | some name => name
  | none => (dictGet MAIN_PROP_NAMES prop_id).getD ("Prop " ++ toString prop_id)

/-- `get_weapon_name` (lines 163-165). -/
def get_weapon_name (weapon_id : Int) : String :=
  (dictGet WEAPON_NAMES weapon_id).getD ("Weapon " ++ toString weapon_id)

/-- The chain of `.replace` calls of `get_stat_name`
(`id_translations.py` lines 177-188), in source order. -/
def statNameRepl (s : String) : String :=
  let s := pyReplace s "Hp" "HP"
  let s := pyReplace s "Atk" "ATK"
  let s := pyReplace s "Def" "DEF"
  let s := pyReplace s "Crit" "CRIT"
  let s := pyReplace s "Crit Hurt" "CRIT DMG"
  let s := pyReplace s "Base Attack" "Base ATK"
  let s := pyReplace s "Charge Efficiency" "Energy Recharge"
  let s := pyReplace s "Element Mastery" "Elemental Mastery"
  let s := pyReplace s "Fire Add Hurt" "Pyro DMG Bonus"
  let s := pyReplace s "Water Add Hurt" "Hydro DMG Bonus"
  let s := pyReplace s "Grass Add Hurt" "Dendro DMG Bonus"
  let s := pyReplace s "Elec Add Hurt" "Electro DMG Bonus"
  let s := pyReplace s "Wind Add Hurt" "Anemo DMG Bonus"
  let s := pyReplace s "Rock Add Hurt" "Geo DMG Bonus"
  let s := pyReplace s "Ice Add Hurt" "Cryo DMG Bonus"
  s

/-- `get_stat_name` (lines 168-191). Note that line 173 is
`stat_id.replace("FIGHT_PROP_", "")`, which removes every occurrence of the
marker, not only a leading one. -/
def get_stat_name (stat_id : String) : String :=
  if strStartsWith stat_id "FIGHT_PROP_" then
    let name := pyReplace stat_id "FIGHT_PROP_" ""
    let name := pyReplace name "_" " "
    let name := pyTitle name
    statNameRepl name
  else
    get_fight_prop_name stat_id

/-- Modelled from the claim's words for comparison with `get_stat_name`:
the conversion described as "stripping the prefix" (dropping one leading
`FIGHT_PROP_` marker) followed by the same underscore-to-space,
title-casing and replacement steps as the source. -/
def statNameSpecStrip (stat_id : String) : String :=
  let name : String := ⟨stat_id.data.drop ("FIGHT_PROP_" : String).data.length⟩
  statNameRepl (pyTitle (pyReplace name "_" " "))

/-! ### Pydantic models of `fetch_player_info_direct.py` -/

structure ProfilePicture where
  id : Int
deriving DecidableEq

structure ShowAvatarInfo where
  avatarId : Int
  level : Int
  energyType : Int
  costumeId : Option Int := none
deriving DecidableEq

structure PlayerInfo where
  nickname : String
  level : Int
  worldLevel : Int
  nameCardId : Int
  finishAchievementNum : Int
  towerFloorIndex : Int
  towerLevelIndex : Int
  showAvatarInfoList : List ShowAvatarInfo
  profilePicture : ProfilePicture
  theaterActIndex : Option Int := none
  theaterModeIndex : Option Int := none
  theaterStarIndex : Option Int := none
  fetterCount : Option Int := none
  towerStarIndex : Option Int := none
  stygianIndex : Option Int := none
  stygianSeconds : Option Int := none
  stygianId : Option Int := none
deriving DecidableEq

structure ReliquarySubstat where
  appendPropId : String
  statValue : StatValue
deriving DecidableEq

structure ReliquaryMainstat where
  mainPropId : String
  statValue : StatValue
deriving DecidableEq

structure ReliquaryFlat where
  nameTextMapHash : String
  rankLevel : Int
  itemType : String
  icon : String
  equipType : String
  setId : Option Int := none
  setNameTextMapHash : Option String := none
  reliquarySubstats : Option (List ReliquarySubstat) := none
  reliquaryMainstat : Option ReliquaryMainstat := none
deriving DecidableEq

structure Reliquary where
  level : Int
  mainPropId : Int
  appendPropIdList : List Int
deriving DecidableEq

structure WeaponStat where
  appendPropId : String
  statValue : StatValue
deriving DecidableEq

structure WeaponFlat where
  nameTextMapHash : String
  rankLevel : Int
  itemType : String
  icon : String
  weaponStats : List WeaponStat
deriving DecidableEq

structure Weapon where
  level : Int
  promoteLevel : Int
  affixMap : List (String × Int)
deriving DecidableEq

/-- `Equipment` (lines 104-108): both cores are `Optional` with default
`None`; `flat` is `Union[ReliquaryFlat, WeaponFlat]`. -/
structure Equipment where
  itemId : Int
  reliquary : Option Reliquary := none
  weapon : Option Weapon := none
  flat : ReliquaryFlat ⊕ WeaponFlat
deriving DecidableEq

structure FetterInfo where
  expLevel : Int
deriving DecidableEq

/-- A JSON document, with numbers carrying their source representation. -/
inductive Json where
  | null
  | bool (b : Bool)
  | int (n : Int)
  | float (f : PyFloat)
  | str (s : String)
  | arr (elems : List Json)
  | obj (fields : List (String × Json))

structure AvatarInfo where
  avatarId : Int
  propMap : List (String × List (String × Json))
  talentIdList : Option (List Int) := none
  fightPropMap : List (String × PyFloat)
  skillDepotId : Int
  inherentProudSkillList : List Int
  skillLevelMap : List (String × Int)
  equipList : List Equipment
  fetterInfo : FetterInfo

structure EnkaNetworkResponse where
  playerInfo : PlayerInfo
  avatarInfoList : List AvatarInfo
  ttl : Int
  uid : String

/-! ### Pydantic validation of the `Equipment` subtree -/

def objGet (fields : List (String × Json)) (key : String) : Option Json :=
  dictGet fields key

def validateInt : Json → Except String Int
  | .int n => .ok n
  | _ => .error "value is not an integer"

def validateStr : Json → Except String String
  | .str s => .ok s
  | _ => .error "value is not a string"

/-- `Union[int, float]`: an integer-represented number validates as `int`, a
float-represented one as `float` (pydantic's union keeps the matching
representation). -/
def validateStatValue : Json → Except String StatValue
  | .int n => .ok (.int n)
  | .float f => .ok (.float f)
  | _ => .error "value is not a number"

/-- A declared-required field: absent means a validation error. -/
def reqField {α : Type} (fields : List (String × Json)) (key : String)
    (f : Json → Except String α) : Except String α :=
  match objGet fields key with
  | some j => f j
  | none => .error ("field required: " ++ key)

/-- An `Optional[...] = None` field: absent or `null` yields `none`. -/
def optField {α : Type} (fields : List (String × Json)) (key : String)
    (f : Json → Except String α) : Except String (Option α) :=
  match objGet fields key with
  | none => .ok none
  | some .null => .ok none
  | some j => Except.map some (f j)

def validateListWith {α : Type} (f : Json → Except String α) : Json → Except String (List α)
  | .arr elems => elems.mapM f
  | _ => .error "value is not a list"

/-- `Dict[str, int]` (the weapon `affixMap`). -/
def validateIntDict : Json → Except String (List (String × Int))
  | .obj fields => fields.mapM (fun kv => Except.map (fun n => (kv.1, n)) (validateInt kv.2))
  | _ => .error "value is not an object"

def validateReliquarySubstat : Json → Except String ReliquarySubstat
  | .obj fields => do
    let appendPropId ← reqField fields "appendPropId" validateStr
    let statValue ← reqField fields "statValue" validateStatValue
    return { appendPropId := appendPropId, statValue := statValue }
  | _ => .error "value is not an object"

def validateReliquaryMainstat : Json → Except String ReliquaryMainstat
  | .obj fields => do
    let mainPropId ← reqField fields "mainPropId" validateStr
    let statValue ← reqField fields "statValue" validateStatValue
    return { mainPropId := mainPropId, statValue := statValue }
  | _ => .error "value is not an object"

def validateReliquaryFlat : Json → Except String ReliquaryFlat
  | .obj fields => do
    let nameTextMapHash ← reqField fields "nameTextMapHash" validateStr
    let rankLevel ← reqField fields "rankLevel" validateInt
    let itemType ← reqField fields "itemType" validateStr
    let icon ← reqField fields "icon" validateStr
    let equipType ← reqField fields "equipType" validateStr
    let setId ← optField fields "setId" validateInt
    let setNameTextMapHash ← optField fields "setNameTextMapHash" validateStr
    let reliquarySubstats ← optField fields "reliquarySubstats" (validateListWith validateReliquarySubstat)
    let reliquaryMainstat ← optField fields "reliquaryMainstat" validateReliquaryMainstat
    return { nameTextMapHash := nameTextMapHash, rankLevel := rankLevel,
             itemType := itemType, icon := icon, equipType := equipType,
             setId := setId, setNameTextMapHash := setNameTextMapHash,
             reliquarySubstats := reliquarySubstats, reliquaryMainstat := reliquaryMainstat }
  | _ => .error "value is not an object"

def validateWeaponStat : Json → Except String WeaponStat
  | .obj fields => do
    let appendPropId ← reqField fields "appendPropId" validateStr
    let statValue ← reqField fields "statValue" validateStatValue
    return { appendPropId := appendPropId, statValue := statValue }
  | _ => .error "value is not an object"

def validateWeaponFlat : Json → Except String WeaponFlat
  | .obj fields => do
    let nameTextMapHash ← reqField fields "nameTextMapHash" validateStr
    let rankLevel ← reqField fields "rankLevel" validateInt
    let itemType ← reqField fields "itemType" validateStr
    let icon ← reqField fields "icon" validateStr
    let weaponStats ← reqField fields "weaponStats" (validateListWith validateWeaponStat)
    return { nameTextMapHash := nameTextMapHash, rankLevel := rankLevel,
             itemType := itemType, icon := icon, weaponStats := weaponStats }
  | _ => .error "value is not an object"

def validateReliquary : Json → Except String Reliquary
  | .obj fields => do
    let level ← reqField fields "level" validateInt
    let mainPropId ← reqField fields "mainPropId" validateInt
    let appendPropIdList ← reqField fields "appendPropIdList" (validateListWith validateInt)
    return { level := level, mainPropId := mainPropId, appendPropIdList := appendPropIdList }
  | _ => .error "value is not an object"

def validateWeapon : Json → Except String Weapon
  | .obj fields => do
    let level ← reqField fields "level" validateInt
    let promoteLevel ← reqField fields "promoteLevel" validateInt
    let affixMap ← reqField fields "affixMap" validateIntDict
    return { level := level, promoteLevel := promoteLevel, affixMap := affixMap }
  | _ => .error "value is not an object"

/-- Resolution of `flat: Union[ReliquaryFlat, WeaponFlat]`: pydantic tries
the members left to right and keeps the first that validates; the sibling
`reliquary`/`weapon` fields play no part in the choice. -/
def validateFlat (j : Json) : Except String (ReliquaryFlat ⊕ WeaponFlat) :=
  match validateReliquaryFlat j with
  | .ok f => .ok (.inl f)
  | .error _ => Except.map Sum.inr (validateWeaponFlat j)

/-- Validation of one `Equipment` record (`fetch_player_info_direct.py`
lines 104-108): `itemId` and `flat` are required, both cores are optional
with default `None`. -/
def validate_equipment : Json → Except String Equipment
  | .obj fields => do
    let itemId ← reqField fields "itemId" validateInt
    let reliquary ← optField fields "reliquary" validateReliquary
    let weapon ← optField fields "weapon" validateWeapon
    let flat ← reqField fields "flat" validateFlat
    return { itemId := itemId, reliquary := reliquary, weapon := weapon, flat := flat }
  | _ => .error "value is not an object"

/-! ### `fetch_player_info_direct.py` display logic -/

/-- Python `max` over a non-empty list (the `[]` case is unreachable at the
single call site, which guards on non-emptiness). -/
def pyMaxInt : List Int → Int
  | [] => 0
  | x :: xs => xs.foldl max x

/-- The refinement computation of `display_character_info` line 254:
`max(equip.weapon.affixMap.values()) + 1 if equip.weapon.affixMap else 1`. -/
def refinement (weapon : Weapon) : Int :=
  if weapon.affixMap.isEmpty then 1
  else pyMaxInt (weapon.affixMap.map Prod.snd) + 1

/-! ### `character_gear_table.py` -/

def ARTIFACT_TYPE_NAMES : List (String × String) :=
  [("EQUIP_BRACER", "Flower"), ("EQUIP_NECKLACE", "Plume"), ("EQUIP_SHOES", "Sands"),
   ("EQUIP_RING", "Goblet"), ("EQUIP_DRESS", "Circlet")]

/-- The loop of `find_character` (lines 45-50); `target` is the already
lower-cased query. -/
def find_character_loop (target : String) : List AvatarInfo → Option AvatarInfo
  | [] => none
  | char :: rest =>
    if pyLower (get_character_name char.avatarId) = target then some char
    else find_character_loop target rest

/-- `find_character` (lines 32-50). -/
def find_character (data : EnkaNetworkResponse) (character_name : String) : Option AvatarInfo :=
  find_character_loop (pyLower character_name) data.avatarInfoList

/-- One row of the artifact table: the Python dict
`{"Artifact": ..., "Main Stat": ..., "Substat 1..4": ...}` as an
insertion-ordered association list; cell values are `Option String`
(`None` is an explicit blank). -/
def ArtifactRow : Type := List (String × Option String)

instance : DecidableEq ArtifactRow := by
  unfold ArtifactRow
  infer_instance

def substatCell (substat : ReliquarySubstat) : String :=
  fmtStatCell (get_stat_name substat.appendPropId) substat.statValue

def mainstatCell (ms : ReliquaryMainstat) : String :=
  fmtStatCell (get_stat_name ms.mainPropId) ms.statValue

/-- Body of the substat loop (lines 91-99): only indices `i ≤ 4` write
`artifact_info[f"Substat {i}"]`. -/
def substatStep (acc : ArtifactRow) (p : Nat × ReliquarySubstat) : ArtifactRow :=
  if p.1 ≤ 4 then dictSet acc ("Substat " ++ toString p.1) (some (substatCell p.2)) else acc

/-- Construction of one `artifact_info` dict (lines 67-99), for a
reliquary-flat item. -/
def artifactRowOf (flat : ReliquaryFlat) : ArtifactRow :=
  let slot_name := (dictGet ARTIFACT_TYPE_NAMES flat.equipType).getD "Unknown"
  let info : ArtifactRow :=
    [("Artifact", some slot_name), ("Main Stat", none), ("Substat 1", none),
     ("Substat 2", none), ("Substat 3", none), ("Substat 4", none)]
  let info :=
    match flat.reliquaryMainstat with
    | some ms => dictSet info "Main Stat" (some (mainstatCell ms))
    | none => info
  match flat.reliquarySubstats with
  | some subs =>
    if subs.isEmpty then info
    else (List.enumFrom 1 subs).foldl substatStep info
  | none => info

/-- Body of the equipment loop (lines 63-101): a row is appended only for an
item whose `reliquary` core is set and whose `flat` is a `ReliquaryFlat`. -/
def rowStep (artifacts : List ArtifactRow) (equip : Equipment) : List ArtifactRow :=
  match equip.reliquary with
  | some _ =>
    match equip.flat with
    | .inl flat => artifacts ++ [artifactRowOf flat]
    | .inr _ => artifacts
  | none => artifacts

/-- The `artifacts` list of `extract_artifact_details` before the final
sort. -/
def unsorted_artifact_rows (character : AvatarInfo) : List ArtifactRow :=
  character.equipList.foldl rowStep []

def artifact_order : List String := ["Flower", "Plume", "Sands", "Goblet", "Circlet"]

/-- The `x["Artifact"]` access of the sort key; every row built by
`artifactRowOf` has the key. -/
def rowArtifact (row : ArtifactRow) : String :=
  match dictGet row "Artifact" with
  | some (some s) => s
  | _ => ""

/-- Python `list.index` with accumulator (only called when present). -/
def pyIndexAux (target : String) : List String → Nat → Nat
  | [], _ => 0
  | s :: rest, i => if s = target then i else pyIndexAux target rest (i + 1)

/-- The sort key of line 105:
`artifact_order.index(x["Artifact"]) if x["Artifact"] in artifact_order else 999`. -/
def artifactKey (row : ArtifactRow) : Nat :=
  if artifact_order.contains (rowArtifact row) then
    pyIndexAux (rowArtifact row) artifact_order 0
  else 999

/-- Stable insertion by key: `x` goes before the first element whose key is
not smaller, so earlier elements win ties. -/
def insertByKey {α : Type} (key : α → Nat) (x : α) : List α → List α
  | [] => [x]
  | y :: ys => if key y < key x then y :: insertByKey key x ys else x :: y :: ys

/-- Stable sort by key. Python's `list.sort(key=...)` (Timsort) is stable,
and every stable sort by the same key of the same list produces the same
output, so this embeds line 105 faithfully. -/
def sortByKey {α : Type} (key : α → Nat) : List α → List α
  | [] => []
  | x :: xs => insertByKey key x (sortByKey key xs)

/-- `extract_artifact_details` (lines 53-107). -/
def extract_artifact_details (character : AvatarInfo) : List ArtifactRow :=
  sortByKey artifactKey (unsorted_artifact_rows character)

/-- The per-item contribution of the loop of `extract_artifact_details`
as a partial map, for stating which items produce a row. -/
def reliquaryRowOf (equip : Equipment) : Option ArtifactRow :=
  match equip.reliquary, equip.flat with
  | some _, .inl flat => some (artifactRowOf flat)
  | _, _ => none

/-! ### Display-string shape predicates -/

/-- A plain integer string: no decimal point and no percent sign. -/
def plainIntString (s : String) : Prop := '.' ∉ s.data ∧ '%' ∉ s.data

/-- A one-decimal percentage string: some text without dot or percent signs
after it, then a decimal point, exactly one digit, and a trailing `%`. -/
def oneDecimalPercent (s : String) : Prop :=
  ∃ (t : String) (d : Char), s = t ++ "." ++ String.singleton d ++ "%"
    ∧ d.isDigit = true ∧ '.' ∉ t.data ∧ '%' ∉ t.data

/-! ### Sample data for concrete instances -/

def sampleFlatOf (et : String) : ReliquaryFlat :=
  { nameTextMapHash := "hash", rankLevel := 5, itemType := "ITEM_RELIQUARY",
    icon := "icon", equipType := et }

def sampleReliquary : Reliquary :=
  { level := 21, mainPropId := 13002, appendPropIdList := [] }

def sampleGoblet : Equipment :=
  { itemId := 81544, reliquary := some sampleReliquary, flat := .inl (sampleFlatOf "EQUIP_RING") }

def sampleFlower : Equipment :=
  { itemId := 81524, reliquary := some sampleReliquary, flat := .inl (sampleFlatOf "EQUIP_BRACER") }

def sampleWeaponFlat : WeaponFlat :=
  { nameTextMapHash := "whash", rankLevel := 5, itemType := "ITEM_WEAPON",
    icon := "wicon", weaponStats := [] }

def sampleWeaponEquip : Equipment :=
  { itemId := 13501, weapon := some { level := 90, promoteLevel := 6, affixMap := [("13504", 4)] },
    flat := .inr sampleWeaponFlat }

/-- An item whose reliquary core is set but whose flat is weapon-shaped:
silently skipped by `extract_artifact_details`. -/
def sampleMismatchEquip : Equipment :=
  { itemId := 9, reliquary := some sampleReliquary, flat := .inr sampleWeaponFlat }

def mkAvatar (avatar_id : Int) (equips : List Equipment) : AvatarInfo :=
  { avatarId := avatar_id, propMap := [], fightPropMap := [], skillDepotId := 0,
    inherentProudSkillList := [], skillLevelMap := [], equipList := equips,
    fetterInfo := { expLevel := 10 } }

/-- A character with only a Goblet and a Flower equipped (Goblet listed
first). -/
def sampleCharGF : AvatarInfo := mkAvatar 10000089 [sampleGoblet, sampleFlower]

def samplePlayerInfo : PlayerInfo :=
  { nickname := "player", level := 60, worldLevel := 8, nameCardId := 0,
    finishAchievementNum := 0, towerFloorIndex := 12, towerLevelIndex := 3,
    showAvatarInfoList := [], profilePicture := { id := 0 } }

def sampleProfile : EnkaNetworkResponse :=
  { playerInfo := samplePlayerInfo, avatarInfoList := [sampleCharGF],
    ttl := 60, uid := "657846809" }

/-- A circlet flat payload with a main stat and a single substat, for
row-shape instances. -/
def sampleCircletFlat : ReliquaryFlat :=
  { sampleFlatOf "EQUIP_DRESS" with
    reliquaryMainstat := some { mainPropId := "FIGHT_PROP_CRITICAL_HURT", statValue := .float ⟨623, 1⟩ },
    reliquarySubstats := some [{ appendPropId := "FIGHT_PROP_HP", statValue := .int 478 }] }

def sampleCirclet : Equipment :=
  { itemId := 81554, reliquary := some sampleReliquary, flat := .inl sampleCircletFlat }

/-! ### Sample JSON documents for the `Equipment` validator -/

def reliquaryFlatJson : Json := .obj
  [("nameTextMapHash", .str "hash"), ("rankLevel", .int 5),
   ("itemType", .str "ITEM_RELIQUARY"), ("icon", .str "icon"),
   ("equipType", .str "EQUIP_RING")]

def sampleParsedReliquaryFlat : ReliquaryFlat := sampleFlatOf "EQUIP_RING"

/-- A flat payload that validates as `ReliquaryFlat` but also carries the
weapon payload's distinguishing `weaponStats` field. -/
def ambiguousFlatJson : Json := .obj
  [("nameTextMapHash", .str "hash"), ("rankLevel", .int 5),
   ("itemType", .str "ITEM_WEAPON"), ("icon", .str "icon"),
   ("equipType", .str "EQUIP_RING"), ("weaponStats", .arr [])]

def weaponFlatJson : Json := .obj
  [("nameTextMapHash", .str "whash"), ("rankLevel", .int 5),
   ("itemType", .str "ITEM_WEAPON"), ("icon", .str "wicon"),
   ("weaponStats", .arr [.obj [("appendPropId", .str "FIGHT_PROP_BASE_ATTACK"), ("statValue", .int 608)]])]

def weaponCoreJson : Json := .obj
  [("level", .int 90), ("promoteLevel", .int 6), ("affixMap", .obj [("13504", .int 4)])]

def reliquaryCoreJson : Json := .obj
  [("level", .int 21), ("mainPropId", .int 13002), ("appendPropIdList", .arr [.int 501224])]

/-- An equipment record with neither `reliquary` nor `weapon` set. -/
def neitherCoreEquipmentJson : Json := .obj
  [("itemId", .int 81544), ("flat", reliquaryFlatJson)]

/-- An equipment record with the `weapon` core set whose flat payload also
fits the reliquary shape. -/
def weaponCoreAmbiguousEquipmentJson : Json := .obj
  [("itemId", .int 13501), ("weapon", weaponCoreJson), ("flat", ambiguousFlatJson)]

/-- An equipment record with the `reliquary` core set but a weapon-shaped
flat payload. -/
def mismatchedEquipmentJson : Json := .obj
  [("itemId", .int 81544), ("reliquary", reliquaryCoreJson), ("flat", weaponFlatJson)]

/-- An equipment record whose flat payload fits neither variant. -/
def invalidFlatEquipmentJson : Json := .obj
  [("itemId", .int 1), ("reliquary", reliquaryCoreJson),
   ("flat", .obj [("nameTextMapHash", .str "h")])]

/-! ### Expected parses of the sample JSON documents -/

def parsedAmbiguousFlat : ReliquaryFlat :=
  { nameTextMapHash := "hash", rankLevel := 5, itemType := "ITEM_WEAPON",
    icon := "icon", equipType := "EQUIP_RING" }

def parsedWeaponFlat : WeaponFlat :=
  { nameTextMapHash := "whash", rankLevel := 5, itemType := "ITEM_WEAPON",
    icon := "wicon",
    weaponStats := [{ appendPropId := "FIGHT_PROP_BASE_ATTACK", statValue := .int 608 }] }

def parsedWeaponCore : Weapon :=
  { level := 90, promoteLevel := 6, affixMap := [("13504", 4)] }

def parsedReliquaryCore : Reliquary :=
  { level := 21, mainPropId := 13002, appendPropIdList := [501224] }

/-! ### Helper lemmas -/

theorem dictGet_mem {κ α : Type} [DecidableEq κ] :
    ∀ (l : List (κ × α)) (key : κ) (v : α), dictGet l key = some v → (key, v) ∈ l := by
  intro l
  induction l with
  | nil => intro key v h; simp [dictGet] at h
  | cons kv rest ih =>
    intro key v h
    obtain ⟨k, w⟩ := kv
    by_cases hk : k = key
    · subst hk
      simp only [dictGet, if_pos rfl] at h
      injection h with h
      subst h
      exact List.mem_cons_self _ _
    · simp only [dictGet, if_neg hk] at h
      exact List.mem_cons_of_mem _ (ih key v h)

theorem insertByKey_perm {α : Type} (key : α → Nat) (x : α) (l : List α) :
    (insertByKey key x l).Perm (x :: l) := by
  induction l with
  | nil => simp [insertByKey]
  | cons y ys ih =>
    by_cases h : key y < key x
    · simp only [insertByKey, if_pos h]
      exact (ih.cons y).trans (List.Perm.swap x y ys)
    · simp [insertByKey, if_neg h]

theorem sortByKey_perm {α : Type} (key : α → Nat) (l : List α) :
    (sortByKey key l).Perm l := by
  induction l with
  | nil => simp [sortByKey]
  | cons x xs ih =>
    exact (insertByKey_perm key x (sortByKey key xs)).trans (ih.cons x)

theorem foldl_rowStep (l : List Equipment) (acc : List ArtifactRow) :
    l.foldl rowStep acc = acc ++ l.filterMap reliquaryRowOf := by
  induction l generalizing acc with
  | nil => simp
  | cons e t ih =>
    simp only [List.foldl_cons, List.filterMap_cons]
    cases hr : e.reliquary with
    | none => simp [rowStep, reliquaryRowOf, hr, ih]
    | some r =>
      cases hf : e.flat with
      | inl f => simp [rowStep, reliquaryRowOf, hr, hf, ih]
      | inr w => simp [rowStep, reliquaryRowOf, hr, hf, ih]

theorem foldl_max_mem (l : List Int) (a : Int) :
    l.foldl max a = a ∨ l.foldl max a ∈ l := by
  induction l generalizing a with
  | nil => left; rfl
  | cons x xs ih =>
    simp only [List.foldl_cons]
    rcases ih (max a x) with h | h
    · rcases max_choice a x with hm | hm
      · left; rw [h, hm]
      · right; rw [h, hm]; exact List.mem_cons_self _ _
    · right; exact List.mem_cons_of_mem _ h

theorem le_foldl_max_init (l : List Int) (a : Int) : a ≤ l.foldl max a := by
  induction l generalizing a with
  | nil => exact le_refl a
  | cons x xs ih =>
    simp only [List.foldl_cons]
    exact le_trans (le_max_left a x) (ih (max a x))

theorem le_foldl_max_mem (l : List Int) (a : Int) :
    ∀ x ∈ l, x ≤ l.foldl max a := by
  induction l generalizing a with
  | nil => intro x hx; simp at hx
  | cons y ys ih =>
    intro x hx
    simp only [List.foldl_cons]
    rcases List.mem_cons.mp hx with h | h
    · subst h
      exact le_trans (le_max_right a x) (le_foldl_max_init ys (max a x))
    · exact ih (max a y) x h

/-! ### Claims -/

/-- Claim C3: for every id present in a translation table the lookup
returns the mapped name, for every id absent it returns exactly
`"{DomainLabel} {id}"` (domain label, one space, the decimal id); the
lookups are total functions, and the same shape holds for the character,
artifact-set, weapon and stat/property (fight-prop) domains. -/
theorem translation_lookup_fallback :
    (∀ (id : Int) (name : String), dictGet CHARACTER_NAMES id = some name →
      get_character_name id = name)
    ∧ (∀ id : Int, dictGet CHARACTER_NAMES id = none →
      get_character_name id = "Character " ++ toString id)
    ∧ (∀ (id : Int) (name : String), dictGet ARTIFACT_SETS id = some name →
      get_artifact_set_name id = name)
    ∧ (∀ id : Int, dictGet ARTIFACT_SETS id = none →
      get_artifact_set_name id = "Set " ++ toString id)
    ∧ (∀ (id : Int) (name : String), dictGet WEAPON_NAMES id = some name →
      get_weapon_name id = name)
    ∧ (∀ id : Int, dictGet WEAPON_NAMES id = none →
      get_weapon_name id = "Weapon " ++ toString id)
    ∧ (∀ (key name : String), dictGet FIGHT_PROP_NAMES key = some name →
      get_fight_prop_name key = name)
    ∧ (∀ key : String, dictGet FIGHT_PROP_NAMES key = none →
      get_fight_prop_name key = "Prop " ++ key) := by
  refine ⟨?_, ?_, ?_, ?_, ?_, ?_, ?_, ?_⟩ <;>
    first
      | (intro id name h; simp [get_character_name, get_artifact_set_name,
          get_weapon_name, h])
      | (intro id h; simp [get_character_name, get_artifact_set_name,
          get_weapon_name, h])
      | (intro key name h; simp [get_fight_prop_name, h])
      | (intro key h; simp [get_fight_prop_name, h])

/-- Witness for C3 at concrete ids: a known character id maps to its fixed
name and an unknown one to the fallback string. -/
theorem translation_lookup_fallback_witness :
    get_character_name 10000025 = "Xingqiu"
    ∧ get_character_name 99999999 = "Character " ++ toString (99999999 : Int) :=
  ⟨translation_lookup_fallback.1 10000025 "Xingqiu" (by decide),
   translation_lookup_fallback.2.1 99999999 (by decide)⟩

/-- Claim C9 (supporting part is stated inside): `get_main_prop_name`
coincides with a direct `MAIN_PROP_NAMES` lookup with its
`"Prop {prop_id}"` default, because every key of `ELEMENTAL_DMG_BONUS` is
also a key of `MAIN_PROP_NAMES` with an identical name. -/
theorem main_prop_lookup_refines :
    ∀ prop_id : Int,
      get_main_prop_name prop_id =
        (dictGet MAIN_PROP_NAMES prop_id).getD ("Prop " ++ toString prop_id)
      ∧ (∀ name : String, dictGet ELEMENTAL_DMG_BONUS prop_id = some name →
          dictGet MAIN_PROP_NAMES prop_id = some name) := by
  have sub : ∀ (prop_id : Int) (name : String),
      dictGet ELEMENTAL_DMG_BONUS prop_id = some name →
      dictGet MAIN_PROP_NAMES prop_id = some name := by
    intro prop_id name h
    have hm := dictGet_mem _ _ _ h
    fin_cases hm <;> decide
  intro prop_id
  refine ⟨?_, sub prop_id⟩
  cases h : dictGet ELEMENTAL_DMG_BONUS prop_id with
  | none => simp [get_main_prop_name, h]
  | some name => simp [get_main_prop_name, h, sub prop_id name h]

/-- Witness for C9 at a concrete id that is in both tables. -/
theorem main_prop_lookup_refines_witness :
    dictGet MAIN_PROP_NAMES 15008 = some "Pyro DMG Bonus" :=
  (main_prop_lookup_refines 15008).2 "Pyro DMG Bonus" (by decide)

/-- Claim C8: the displayed weapon refinement is the maximum of the affix
map's values plus one, and is 1 when the affix map is empty. -/
theorem refinement_spec :
    ∀ w : Weapon,
      (w.affixMap = [] → refinement w = 1)
      ∧ (w.affixMap ≠ [] →
          ∃ v, v ∈ w.affixMap.map Prod.snd ∧ refinement w = v + 1
            ∧ ∀ u ∈ w.affixMap.map Prod.snd, u ≤ v) := by
  intro w
  constructor
  · intro h
    simp [refinement, h]
  · intro h
    cases hm : w.affixMap with
    | nil => exact absurd hm h
    | cons kv rest =>
      refine ⟨pyMaxInt (w.affixMap.map Prod.snd), ?_, ?_, ?_⟩
      · rw [hm]
        simp only [List.map_cons, pyMaxInt]
        rcases foldl_max_mem (rest.map Prod.snd) kv.2 with hh | hh
        · rw [hh]; exact List.mem_cons_self _ _
        · exact List.mem_cons_of_mem _ hh
      · simp [refinement, hm]
      · rw [hm]
        intro u hu
        simp only [List.map_cons, pyMaxInt]
        rcases List.mem_cons.mp hu with h1 | h1
        · subst h1; exact le_foldl_max_init _ _
        · exact le_foldl_max_mem _ _ u h1

/-- Witness for C8: a weapon with affix values {4, 2} displays refinement 5,
and one with an empty affix map displays refinement 1. -/
theorem refinement_spec_witness :
    (∃ v, v ∈ ([("13504", 4), ("13505", 2)] : List (String × Int)).map Prod.snd
      ∧ refinement { level := 90, promoteLevel := 6, affixMap := [("13504", 4), ("13505", 2)] } = v + 1
      ∧ ∀ u ∈ ([("13504", 4), ("13505", 2)] : List (String × Int)).map Prod.snd, u ≤ v)
    ∧ refinement { level := 1, promoteLevel := 0, affixMap := [] } = 1 :=
  ⟨(refinement_spec { level := 90, promoteLevel := 6, affixMap := [("13504", 4), ("13505", 2)] }).2 (by decide),
   (refinement_spec { level := 1, promoteLevel := 0, affixMap := [] }).1 rfl⟩

/-- Claim C10: `extract_artifact_details` produces exactly one row per
equipment item whose reliquary core is set and whose flat value is the
reliquary variant; an item with a reliquary core but a weapon-shaped flat
contributes nothing (and no error is raised — the functions are total),
and weapon items contribute nothing. -/
theorem extract_rows_per_reliquary_item :
    (∀ character : AvatarInfo,
      unsorted_artifact_rows character = character.equipList.filterMap reliquaryRowOf
      ∧ (extract_artifact_details character).length
          = (character.equipList.filterMap reliquaryRowOf).length)
    ∧ reliquaryRowOf sampleMismatchEquip = none
    ∧ reliquaryRowOf sampleWeaponEquip = none
    ∧ extract_artifact_details (mkAvatar 10000030 [sampleGoblet, sampleMismatchEquip, sampleWeaponEquip])
        = [artifactRowOf (sampleFlatOf "EQUIP_RING")] := by
  refine ⟨?_, rfl, rfl, rfl⟩
  intro character
  have h1 : unsorted_artifact_rows character = character.equipList.filterMap reliquaryRowOf := by
    simpa using foldl_rowStep character.equipList []
  refine ⟨h1, ?_⟩
  rw [extract_artifact_details, (sortByKey_perm artifactKey _).length_eq, h1]

/-- Claim C7 counterexample: on the key `"FIGHT_PROP_FIGHT_PROP_HP"` (which
has the symbolic form) the code removes every occurrence of the marker
(`str.replace`), yielding `"HP"`, whereas the conversion described by the
claim — stripping the leading prefix once — yields `"Fight Prop HP"`. -/
theorem stat_name_marker_cex :
    strStartsWith "FIGHT_PROP_FIGHT_PROP_HP" "FIGHT_PROP_" = true
    ∧ get_stat_name "FIGHT_PROP_FIGHT_PROP_HP" = "HP"
    ∧ statNameSpecStrip "FIGHT_PROP_FIGHT_PROP_HP" = "Fight Prop HP"
    ∧ get_stat_name "FIGHT_PROP_FIGHT_PROP_HP" ≠ statNameSpecStrip "FIGHT_PROP_FIGHT_PROP_HP" := by
  refine ⟨by decide, by decide, by decide, by decide⟩

/-- Claim C7 as amended: the lookup is total and takes exactly one of two
paths — a key starting with the symbolic marker is converted by removing
every occurrence of the marker, replacing underscores with spaces,
title-casing and applying the fixed replacement chain `statNameRepl`;
any other key falls back to the numeric fight-prop table with its
`"Prop {key}"` default. -/
theorem stat_name_two_paths :
    (∀ stat_id : String,
      get_stat_name stat_id =
        if strStartsWith stat_id "FIGHT_PROP_" then
          statNameRepl (pyTitle (pyReplace (pyReplace stat_id "FIGHT_PROP_" "") "_" " "))
        else (dictGet FIGHT_PROP_NAMES stat_id).getD ("Prop " ++ stat_id))
    ∧ get_stat_name "FIGHT_PROP_HP" = "HP"
    ∧ get_stat_name "FIGHT_PROP_BASE_ATTACK" = "Base ATK"
    ∧ get_stat_name "FIGHT_PROP_CHARGE_EFFICIENCY" = "Energy Recharge"
    ∧ get_stat_name "FIGHT_PROP_FIRE_ADD_HURT" = "Pyro DMG Bonus"
    ∧ get_stat_name "FIGHT_PROP_UNKNOWN_THING" = "Unknown Thing"
    ∧ get_stat_name "20" = "CRIT DMG"
    ∧ get_stat_name "99" = "Prop 99" := by
  refine ⟨fun stat_id => rfl, by decide, by decide, by decide, by decide, by decide,
    by decide, by decide⟩

theorem insertByKey_pairwise {α : Type} (key : α → Nat) (x : α) (l : List α)
    (h : l.Pairwise (fun a b => key a ≤ key b)) :
    (insertByKey key x l).Pairwise (fun a b => key a ≤ key b) := by
  induction l with
  | nil => simp [insertByKey]
  | cons y ys ih =>
    rcases List.pairwise_cons.mp h with ⟨hy, hys⟩
    by_cases hlt : key y < key x
    · simp only [insertByKey, if_pos hlt]
      refine List.pairwise_cons.mpr ⟨?_, ih hys⟩
      intro z hz
      rcases List.mem_cons.mp ((insertByKey_perm key x ys).mem_iff.mp hz) with hzx | hzys
      · subst hzx; exact le_of_lt hlt
      · exact hy z hzys
    · simp only [insertByKey, if_neg hlt]
      refine List.pairwise_cons.mpr ⟨?_, h⟩
      intro z hz
      rcases List.mem_cons.mp hz with hzy | hzys
      · subst hzy; exact Nat.le_of_not_lt hlt
      · exact le_trans (Nat.le_of_not_lt hlt) (hy z hzys)

theorem sortByKey_pairwise {α : Type} (key : α → Nat) (l : List α) :
    (sortByKey key l).Pairwise (fun a b => key a ≤ key b) := by
  induction l with
  | nil => simp [sortByKey]
  | cons x xs ih => exact insertByKey_pairwise key x _ ih

theorem insertByKey_filter {α : Type} (key : α → Nat) (k : Nat) (x : α) (l : List α) :
    (insertByKey key x l).filter (fun r => key r == k) =
      if key x == k then x :: l.filter (fun r => key r == k)
      else l.filter (fun r => key r == k) := by
  induction l with
  | nil =>
    by_cases hxk : key x = k <;> simp [insertByKey, List.filter_cons, hxk]
  | cons y ys ih =>
    by_cases hlt : key y < key x
    · simp only [insertByKey, if_pos hlt]
      by_cases hxk : key x = k
      · have hyk : key y ≠ k := by omega
        simp [List.filter_cons, ih, hxk, hyk]
      · by_cases hyk : key y = k <;> simp [List.filter_cons, ih, hxk, hyk]
    · simp only [insertByKey, if_neg hlt]
      by_cases hxk : key x = k <;> simp [List.filter_cons, hxk]

theorem sortByKey_filter {α : Type} (key : α → Nat) (k : Nat) (l : List α) :
    (sortByKey key l).filter (fun r => key r == k) = l.filter (fun r => key r == k) := by
  induction l with
  | nil => simp [sortByKey]
  | cons x xs ih =>
    by_cases hxk : key x = k <;>
      simp [sortByKey, insertByKey_filter, ih, List.filter_cons, hxk]

/-- Claim C4: the rows of `extract_artifact_details` are sorted by the fixed
slot ordering Flower, Plume, Sands, Goblet, Circlet (the sort key), they are
a permutation of the rows built from the equipped items (so the order is the
fixed one restricted to the slots present), rows with equal keys — in
particular all rows whose slot name is outside the fixed set, which get key
999, larger than every in-set key — keep their relative order (stability),
and a character with only a Goblet and a Flower equipped yields the order
Flower, Goblet. -/
theorem artifact_rows_slot_order :
    (∀ character : AvatarInfo,
      (extract_artifact_details character).Pairwise (fun a b => artifactKey a ≤ artifactKey b)
      ∧ (extract_artifact_details character).Perm (unsorted_artifact_rows character)
      ∧ (∀ k : Nat,
          (extract_artifact_details character).filter (fun r => artifactKey r == k)
            = (unsorted_artifact_rows character).filter (fun r => artifactKey r == k)))
    ∧ (extract_artifact_details sampleCharGF).map rowArtifact = ["Flower", "Goblet"]
    ∧ (∀ row : ArtifactRow, artifact_order.contains (rowArtifact row) = false →
        artifactKey row = 999)
    ∧ artifactKey (artifactRowOf (sampleFlatOf "EQUIP_BRACER")) = 0
    ∧ artifactKey (artifactRowOf (sampleFlatOf "EQUIP_DRESS")) = 4
    ∧ artifactKey (artifactRowOf (sampleFlatOf "EQUIP_MYSTERY")) = 999 := by
  refine ⟨?_, by decide, ?_, by decide, by decide, by decide⟩
  · intro character
    exact ⟨sortByKey_pairwise artifactKey _, sortByKey_perm artifactKey _,
      fun k => sortByKey_filter artifactKey k _⟩
  · intro row h
    unfold artifactKey
    rw [h]
    rfl

theorem find_character_loop_spec (target : String) (l : List AvatarInfo) :
    (∀ c, find_character_loop target l = some c →
      ∃ l₁ l₂, l = l₁ ++ c :: l₂
        ∧ pyLower (get_character_name c.avatarId) = target
        ∧ ∀ c' ∈ l₁, pyLower (get_character_name c'.avatarId) ≠ target)
    ∧ (find_character_loop target l = none →
        ∀ c ∈ l, pyLower (get_character_name c.avatarId) ≠ target) := by
  induction l with
  | nil =>
    constructor
    · intro c h; simp [find_character_loop] at h
    · intro _ c hc; simp at hc
  | cons a t ih =>
    by_cases hm : pyLower (get_character_name a.avatarId) = target
    · constructor
      · intro c h
        simp only [find_character_loop, if_pos hm] at h
        injection h with h
        subst h
        exact ⟨[], t, rfl, hm, by intro c' hc'; simp at hc'⟩
      · intro h
        simp [find_character_loop, if_pos hm] at h
    · constructor
      · intro c h
        simp only [find_character_loop, if_neg hm] at h
        obtain ⟨l₁, l₂, hl, hc, hprev⟩ := ih.1 c h
        refine ⟨a :: l₁, l₂, by rw [hl]; rfl, hc, ?_⟩
        intro c' hc'
        rcases List.mem_cons.mp hc' with h1 | h1
        · subst h1; exact hm
        · exact hprev c' h1
      · intro h c hc
        simp only [find_character_loop, if_neg hm] at h
        rcases List.mem_cons.mp hc with h1 | h1
        · subst h1; exact hm
        · exact ih.2 h c h1

/-- Claim C5: `find_character` performs a case-insensitive exact match of
the query against the translated character name of each entry of
`avatarInfoList` in original list order — when it returns a character, that
character is the first entry whose lower-cased translated name equals the
lower-cased query (no earlier entry matches); when no entry matches it
returns `none` (and it is a total function, so it never throws). -/
theorem find_character_spec :
    ∀ (data : EnkaNetworkResponse) (character_name : String),
      (∀ c, find_character data character_name = some c →
        ∃ l₁ l₂, data.avatarInfoList = l₁ ++ c :: l₂
          ∧ pyLower (get_character_name c.avatarId) = pyLower character_name
          ∧ ∀ c' ∈ l₁, pyLower (get_character_name c'.avatarId) ≠ pyLower character_name)
      ∧ (find_character data character_name = none →
          ∀ c ∈ data.avatarInfoList,
            pyLower (get_character_name c.avatarId) ≠ pyLower character_name) :=
  fun data character_name =>
    find_character_loop_spec (pyLower character_name) data.avatarInfoList

/-- Witness for C5: on the sample profile, the mixed-case query `"FuRiNa"`
finds the character with avatar id 10000089 (translated name `"Furina"`). -/
theorem find_character_spec_witness :
    ∃ l₁ l₂, sampleProfile.avatarInfoList = l₁ ++ sampleCharGF :: l₂
      ∧ pyLower (get_character_name sampleCharGF.avatarId) = pyLower "FuRiNa"
      ∧ ∀ c' ∈ l₁, pyLower (get_character_name c'.avatarId) ≠ pyLower "FuRiNa" :=
  (find_character_spec sampleProfile "FuRiNa").1 sampleCharGF rfl

theorem enumFrom_fst_ge {α : Type} : ∀ (l : List α) (n : Nat) (p : Nat × α),
    p ∈ List.enumFrom n l → n ≤ p.1 := by
  intro l
  induction l with
  | nil => intro n p h; simp [List.enumFrom] at h
  | cons a t ih =>
    intro n p h
    simp only [List.enumFrom] at h
    rcases List.mem_cons.mp h with h1 | h1
    · subst h1; exact le_refl n
    · exact Nat.le_of_succ_le (ih (n + 1) p h1)

theorem foldl_substatStep_high (pairs : List (Nat × ReliquarySubstat)) (acc : ArtifactRow)
    (h : ∀ p ∈ pairs, 4 < p.1) : pairs.foldl substatStep acc = acc := by
  induction pairs generalizing acc with
  | nil => rfl
  | cons p t ih =>
    have hp : 4 < p.1 := h p (List.mem_cons_self _ _)
    simp only [List.foldl_cons, substatStep, if_neg (by omega : ¬ p.1 ≤ 4)]
    exact ih _ (fun q hq => h q (List.mem_cons_of_mem _ hq))

/-- The substat loop over at least four substats writes exactly the first
four. -/
theorem enumFrom_foldl_substatStep_four (s1 s2 s3 s4 : ReliquarySubstat)
    (rest : List ReliquarySubstat) (acc : ArtifactRow) :
    (List.enumFrom 1 (s1 :: s2 :: s3 :: s4 :: rest)).foldl substatStep acc =
      substatStep (substatStep (substatStep (substatStep acc (1, s1)) (2, s2)) (3, s3)) (4, s4) := by
  rw [show List.enumFrom 1 (s1 :: s2 :: s3 :: s4 :: rest)
      = (1, s1) :: (2, s2) :: (3, s3) :: (4, s4) :: List.enumFrom 5 rest from rfl]
  simp only [List.foldl_cons]
  exact foldl_substatStep_high _ _ (fun p hp => by have := enumFrom_fst_ge rest 5 p hp; omega)

theorem dictGet_dictSet_other {κ α : Type} [DecidableEq κ] :
    ∀ (l : List (κ × α)) (k k' : κ) (v : α), k ≠ k' →
      dictGet (dictSet l k v) k' = dictGet l k' := by
  intro l
  induction l with
  | nil => intro k k' v h; simp [dictSet, dictGet, h]
  | cons kv rest ih =>
    intro k k' v h
    obtain ⟨a, b⟩ := kv
    by_cases hak : a = k
    · subst hak
      simp [dictSet, dictGet, h]
    · simp only [dictSet, if_neg hak, dictGet]
      by_cases hak' : a = k'
      · simp [hak']
      · simp [hak', ih k k' v h]

theorem dictSet_keys_of_mem {κ α : Type} [DecidableEq κ] :
    ∀ (l : List (κ × α)) (k : κ) (v : α), k ∈ l.map Prod.fst →
      (dictSet l k v).map Prod.fst = l.map Prod.fst := by
  intro l
  induction l with
  | nil => intro k v h; simp at h
  | cons kv rest ih =>
    intro k v h
    obtain ⟨a, b⟩ := kv
    by_cases hak : a = k
    · subst hak; simp [dictSet]
    · simp only [dictSet, if_neg hak, List.map_cons]
      simp only [List.map_cons] at h
      rcases List.mem_cons.mp h with h1 | h1
      · exact absurd h1.symm hak
      · rw [ih k v h1]

theorem substat_key_ne_main (t : String) : ("Substat " ++ t : String) ≠ "Main Stat" := by
  intro h
  have hd : ("Substat " ++ t).data = ("Main Stat" : String).data := congrArg String.data h
  have hsub : ("Substat " ++ t).data = 'S' :: 'u' :: 'b' :: 's' :: 't' :: 'a' :: 't' :: ' ' :: t.data := by
    have happ : ("Substat " ++ t).data = ("Substat " : String).data ++ t.data := by
      cases t; rfl
    rw [happ]; rfl
  rw [hsub, show ("Main Stat" : String).data
      = 'M' :: 'a' :: 'i' :: 'n' :: ' ' :: 'S' :: 't' :: 'a' :: 't' :: [] from rfl] at hd
  have hc : ('S' : Char) = 'M' := by injection hd
  exact absurd hc (by decide)

theorem substatFold_main_get (pairs : List (Nat × ReliquarySubstat)) (acc : ArtifactRow) :
    dictGet (pairs.foldl substatStep acc) "Main Stat" = dictGet acc "Main Stat" := by
  induction pairs generalizing acc with
  | nil => rfl
  | cons p t ih =>
    by_cases hp : p.1 ≤ 4
    · simp only [List.foldl_cons, substatStep, if_pos hp]
      rw [ih, dictGet_dictSet_other _ _ _ _ (substat_key_ne_main _)]
    · simp only [List.foldl_cons, substatStep, if_neg hp]
      exact ih acc

theorem substatFold_keys (pairs : List (Nat × ReliquarySubstat)) :
    ∀ acc : ArtifactRow, (∀ p ∈ pairs, 1 ≤ p.1) →
      acc.map Prod.fst = ["Artifact", "Main Stat", "Substat 1", "Substat 2", "Substat 3", "Substat 4"] →
      (pairs.foldl substatStep acc).map Prod.fst =
        ["Artifact", "Main Stat", "Substat 1", "Substat 2", "Substat 3", "Substat 4"] := by
  induction pairs with
  | nil => intro acc _ hkeys; exact hkeys
  | cons p t ih =>
    intro acc hge hkeys
    obtain ⟨i, s⟩ := p
    have h1 : 1 ≤ i := hge (i, s) (List.mem_cons_self _ _)
    by_cases hp : i ≤ 4
    · simp only [List.foldl_cons, substatStep]
      rw [if_pos hp]
      refine ih _ (fun q hq => hge q (List.mem_cons_of_mem _ hq)) ?_
      rw [dictSet_keys_of_mem _ _ _ ?_, hkeys]
      rw [hkeys]
      interval_cases i <;> decide
    · simp only [List.foldl_cons, substatStep, if_neg hp]
      exact ih acc (fun q hq => hge q (List.mem_cons_of_mem _ hq)) hkeys

theorem artifactRowOf_keys (flat : ReliquaryFlat) :
    (artifactRowOf flat).map Prod.fst =
      ["Artifact", "Main Stat", "Substat 1", "Substat 2", "Substat 3", "Substat 4"] := by
  rcases hms : flat.reliquaryMainstat with _ | ms <;>
    rcases hss : flat.reliquarySubstats with _ | subs
  · simp [artifactRowOf, hms, hss, dictSet, dictGet]
  · rcases subs with _ | ⟨s, tl⟩
    · simp [artifactRowOf, hms, hss, dictSet, dictGet]
    · simp only [artifactRowOf, hms, hss, List.isEmpty_cons, Bool.false_eq_true, if_false]
      exact substatFold_keys _ _ (fun p hp => enumFrom_fst_ge _ 1 p hp)
        (by simp [dictSet, dictGet])
  · simp [artifactRowOf, hms, hss, dictSet, dictGet]
  · rcases subs with _ | ⟨s, tl⟩
    · simp [artifactRowOf, hms, hss, dictSet, dictGet]
    · simp only [artifactRowOf, hms, hss, List.isEmpty_cons, Bool.false_eq_true, if_false]
      exact substatFold_keys _ _ (fun p hp => enumFrom_fst_ge _ 1 p hp)
        (by simp [dictSet, dictGet])

theorem reliquaryRowOf_eq_artifactRowOf (e : Equipment) (row : ArtifactRow)
    (h : reliquaryRowOf e = some row) : ∃ flat, e.flat = .inl flat ∧ row = artifactRowOf flat := by
  cases hr : e.reliquary with
  | none => cases hf : e.flat <;> simp [reliquaryRowOf, hr, hf] at h
  | some r =>
    cases hf : e.flat with
    | inr w => simp [reliquaryRowOf, hr, hf] at h
    | inl f =>
      simp only [reliquaryRowOf, hr, hf] at h
      injection h with h
      exact ⟨f, rfl, h.symm⟩

theorem artifactRowOf_main_get (flat : ReliquaryFlat) :
    dictGet (artifactRowOf flat) "Main Stat" = some (flat.reliquaryMainstat.map mainstatCell) := by
  rcases hms : flat.reliquaryMainstat with _ | ms <;>
    rcases hss : flat.reliquarySubstats with _ | subs
  · simp [artifactRowOf, hms, hss, dictSet, dictGet]
  · rcases subs with _ | ⟨s, tl⟩
    · simp [artifactRowOf, hms, hss, dictSet, dictGet]
    · simp only [artifactRowOf, hms, hss, List.isEmpty_cons, Bool.false_eq_true, if_false]
      rw [substatFold_main_get]
      simp [dictSet, dictGet]
  · simp [artifactRowOf, hms, hss, dictSet, dictGet]
  · rcases subs with _ | ⟨s, tl⟩
    · simp [artifactRowOf, hms, hss, dictSet, dictGet]
    · simp only [artifactRowOf, hms, hss, List.isEmpty_cons, Bool.false_eq_true, if_false]
      rw [substatFold_main_get]
      simp [dictSet, dictGet]

theorem artifactRowOf_substat_get (flat : ReliquaryFlat) (subs : List ReliquarySubstat)
    (hss : flat.reliquarySubstats = some subs) :
    ∀ i : Nat, 1 ≤ i → i ≤ 4 →
      dictGet (artifactRowOf flat) ("Substat " ++ toString i)
        = some ((subs.get? (i - 1)).map substatCell) := by
  intro i h1 h4
  rcases hms : flat.reliquaryMainstat with _ | ms <;>
    rcases subs with _ | ⟨s1, _ | ⟨s2, _ | ⟨s3, _ | ⟨s4, rest⟩⟩⟩⟩ <;>
    interval_cases i <;>
    (try simp only [artifactRowOf, hms, hss, List.isEmpty_cons, Bool.false_eq_true, if_false,
        enumFrom_foldl_substatStep_four]) <;>
    simp [artifactRowOf, hms, hss, substatStep, dictSet, dictGet, List.enumFrom,
      show ("Substat " ++ toString (1 : Nat) : String) = "Substat 1" from rfl,
      show ("Substat " ++ toString (2 : Nat) : String) = "Substat 2" from rfl,
      show ("Substat " ++ toString (3 : Nat) : String) = "Substat 3" from rfl,
      show ("Substat " ++ toString (4 : Nat) : String) = "Substat 4" from rfl]

theorem artifactRowOf_substat_get_none (flat : ReliquaryFlat)
    (hss : flat.reliquarySubstats = none) :
    ∀ i : Nat, 1 ≤ i → i ≤ 4 →
      dictGet (artifactRowOf flat) ("Substat " ++ toString i) = some none := by
  intro i h1 h4
  rcases hms : flat.reliquaryMainstat with _ | ms <;> interval_cases i <;>
    simp [artifactRowOf, hms, hss, dictSet, dictGet,
      show ("Substat " ++ toString (1 : Nat) : String) = "Substat 1" from rfl,
      show ("Substat " ++ toString (2 : Nat) : String) = "Substat 2" from rfl,
      show ("Substat " ++ toString (3 : Nat) : String) = "Substat 3" from rfl,
      show ("Substat " ++ toString (4 : Nat) : String) = "Substat 4" from rfl]

/-- Claim C6: every row produced by `extract_artifact_details` has exactly
the fixed keys — the slot name plus 5 stat slots (1 main stat and 4
substats) — whatever the item carries; a missing main stat or a missing
substat appears as an explicit blank (`none`) under its key rather than the
key being omitted; and the `Substat i` cell holds exactly the `i`-th of the
item's substats when it exists and a blank otherwise, so at most the first
4 substats of the source item are included. -/
theorem artifact_row_fixed_shape :
    (∀ (character : AvatarInfo) (row : ArtifactRow), row ∈ extract_artifact_details character →
      row.map Prod.fst = ["Artifact", "Main Stat", "Substat 1", "Substat 2", "Substat 3", "Substat 4"])
    ∧ (∀ flat : ReliquaryFlat,
        dictGet (artifactRowOf flat) "Main Stat" = some (flat.reliquaryMainstat.map mainstatCell))
    ∧ (∀ (flat : ReliquaryFlat) (subs : List ReliquarySubstat),
        flat.reliquarySubstats = some subs → ∀ i : Nat, 1 ≤ i → i ≤ 4 →
          dictGet (artifactRowOf flat) ("Substat " ++ toString i)
            = some ((subs.get? (i - 1)).map substatCell))
    ∧ (∀ flat : ReliquaryFlat, flat.reliquarySubstats = none →
        ∀ i : Nat, 1 ≤ i → i ≤ 4 →
          dictGet (artifactRowOf flat) ("Substat " ++ toString i) = some none) := by
  refine ⟨?_, artifactRowOf_main_get, artifactRowOf_substat_get, artifactRowOf_substat_get_none⟩
  intro character row hrow
  have hmem : row ∈ unsorted_artifact_rows character :=
    (sortByKey_perm artifactKey _).mem_iff.mp hrow
  have hchar : unsorted_artifact_rows character = character.equipList.filterMap reliquaryRowOf := by
    simpa using foldl_rowStep character.equipList []
  rw [hchar] at hmem
  obtain ⟨e, _, hrowe⟩ := List.mem_filterMap.mp hmem
  obtain ⟨f, _, hf⟩ := reliquaryRowOf_eq_artifactRowOf e row hrowe
  rw [hf]
  exact artifactRowOf_keys f

/-- Witness for C6 on a circlet with one substat: `Substat 1` holds the
substat's cell and `Substat 2` is an explicit blank. -/
theorem artifact_row_fixed_shape_witness :
    dictGet (artifactRowOf sampleCircletFlat) ("Substat " ++ toString (1 : Nat))
      = some ((([{ appendPropId := "FIGHT_PROP_HP", statValue := .int 478 }]
          : List ReliquarySubstat).get? (1 - 1)).map substatCell)
    ∧ dictGet (artifactRowOf sampleCircletFlat) ("Substat " ++ toString (2 : Nat))
      = some ((([{ appendPropId := "FIGHT_PROP_HP", statValue := .int 478 }]
          : List ReliquarySubstat).get? (2 - 1)).map substatCell) :=
  ⟨artifact_row_fixed_shape.2.2.1 sampleCircletFlat _ rfl 1 (by decide) (by decide),
   artifact_row_fixed_shape.2.2.1 sampleCircletFlat _ rfl 2 (by decide) (by decide)⟩

theorem str_data_append (a b : String) : (a ++ b).data = a.data ++ b.data := by
  cases a; cases b; rfl

theorem str_append_assoc (a b c : String) : (a ++ b) ++ c = a ++ (b ++ c) :=
  String.ext (by simp [str_data_append, List.append_assoc])

theorem str_empty_append (s : String) : ("" : String) ++ s = s := by
  cases s; rfl

theorem digitChar_isDigit (n : Nat) : (digitChar n).isDigit = true := by
  unfold digitChar
  split <;> decide

theorem natDigits_isDigit : ∀ (fuel n : Nat) (c : Char), c ∈ natDigits fuel n → c.isDigit = true := by
  intro fuel
  induction fuel with
  | zero => intro n c h; simp [natDigits] at h
  | succ f ih =>
    intro n c h
    simp only [natDigits] at h
    by_cases h10 : n < 10
    · rw [if_pos h10] at h
      rw [List.mem_singleton] at h
      subst h
      exact digitChar_isDigit n
    · rw [if_neg h10] at h
      rcases List.mem_append.mp h with h1 | h1
      · exact ih _ c h1
      · rw [List.mem_singleton] at h1
        subst h1
        exact digitChar_isDigit _

theorem natStr_isDigit (n : Nat) : ∀ c ∈ (natStr n).data, c.isDigit = true :=
  fun c hc => natDigits_isDigit (n + 1) n c hc

theorem natStr_lt10 (k : Nat) (h : k < 10) : natStr k = String.singleton (digitChar k) := by
  have hdig : natDigits (k + 1) k = [digitChar k] := by
    simp [natDigits, h]
  unfold natStr
  rw [hdig]
  rfl

theorem ite_sign_data (p : Prop) [Decidable p] :
    ((if p then "-" else "" : String)).data = []
    ∨ ((if p then "-" else "" : String)).data = ['-'] := by
  by_cases h : p
  · right; rw [if_pos h]
  · left; rw [if_neg h]

theorem plainIntString_of (sign tail : String)
    (hs : sign.data = [] ∨ sign.data = ['-'])
    (ht : ∀ c ∈ tail.data, c.isDigit = true) :
    plainIntString (sign ++ tail) := by
  constructor <;>
  · intro hmem
    rw [str_data_append] at hmem
    rcases List.mem_append.mp hmem with h1 | h1
    · rcases hs with hsd | hsd <;> rw [hsd] at h1
      · simp at h1
      · rw [List.mem_singleton] at h1
        exact absurd h1 (by decide)
    · exact absurd (ht _ h1) (by decide)

theorem intStr_plain (i : Int) : plainIntString (intStr i) := by
  unfold intStr
  by_cases h : i < 0
  · rw [if_pos h]
    exact plainIntString_of "-" (natStr i.natAbs) (Or.inr rfl) (natStr_isDigit _)
  · rw [if_neg h]
    have hp := plainIntString_of "" (natStr i.natAbs) (Or.inl rfl) (natStr_isDigit _)
    rwa [str_empty_append] at hp

theorem fmt0_plain (f : PyFloat) : plainIntString (fmt0 f) :=
  plainIntString_of _ _ (ite_sign_data _) (natStr_isDigit _)

theorem fmt1_shape (f : PyFloat) :
    fmt1 f = (if f.mant < 0 then "-" else "")
      ++ natStr (rheNat (f.mant.natAbs * 10) ((10 : Nat) ^ f.exp) / 10)
      ++ "." ++ natStr (rheNat (f.mant.natAbs * 10) ((10 : Nat) ^ f.exp) % 10) := rfl

theorem fmt1_oneDecimalPercent (f : PyFloat) : oneDecimalPercent (fmt1 f ++ "%") := by
  have hplain := plainIntString_of (if f.mant < 0 then "-" else "")
    (natStr (rheNat (f.mant.natAbs * 10) ((10 : Nat) ^ f.exp) / 10))
    (ite_sign_data _) (natStr_isDigit _)
  refine ⟨(if f.mant < 0 then "-" else "")
      ++ natStr (rheNat (f.mant.natAbs * 10) ((10 : Nat) ^ f.exp) / 10),
    digitChar (rheNat (f.mant.natAbs * 10) ((10 : Nat) ^ f.exp) % 10),
    ?_, digitChar_isDigit _, hplain.1, hplain.2⟩
  rw [fmt1_shape, natStr_lt10 _ (Nat.mod_lt _ (by decide))]

/-- Claim C2: the stat display used for artifact main stats and substats
produces a one-decimal percentage string (the value to one decimal place
followed by `%`) exactly when the value is float-represented and strictly
below 100, and otherwise an integer string with no decimal point and no
percent sign, the value rounded to the nearest integer (`rheNat`, ties to
even; the rounding conjunct bounds `|rheNat v d - v / d|` by one half);
in particular `10.2 ↦ "10.2%"`, `35 ↦ "35"`, `100.0 ↦ "100"` and
`0.0 ↦ "0.0%"`. The gear-table cell is the stat name, a space, and this
same display. -/
theorem stat_display_spec :
    (∀ f : PyFloat, f.ltInt 100 = true →
      statDisplay (.float f) = fmt1 f ++ "%" ∧ oneDecimalPercent (statDisplay (.float f)))
    ∧ (∀ f : PyFloat, f.ltInt 100 = false →
      statDisplay (.float f) = fmt0 f ∧ plainIntString (statDisplay (.float f)))
    ∧ (∀ n : Int, statDisplay (.int n) = intStr n ∧ plainIntString (statDisplay (.int n)))
    ∧ (∀ (statName : String) (v : StatValue),
        fmtStatCell statName v = statName ++ " " ++ statDisplay v)
    ∧ (∀ v d : Nat, 0 < d → |2 * (rheNat v d : Int) * d - 2 * v| ≤ d)
    ∧ statDisplay (.float ⟨102, 1⟩) = "10.2%"
    ∧ statDisplay (.int 35) = "35"
    ∧ statDisplay (.float ⟨1000, 1⟩) = "100"
    ∧ statDisplay (.float ⟨0, 1⟩) = "0.0%" := by
  refine ⟨?_, ?_, ?_, ?_, ?_, by decide, by decide, by decide, by decide⟩
  · intro f h
    have he : statDisplay (.float f) = fmt1 f ++ "%" := by simp [statDisplay, h]
    exact ⟨he, he ▸ fmt1_oneDecimalPercent f⟩
  · intro f h
    have he : statDisplay (.float f) = fmt0 f := by simp [statDisplay, h]
    exact ⟨he, he ▸ fmt0_plain f⟩
  · intro n
    exact ⟨rfl, intStr_plain n⟩
  · intro statName v
    cases v with
    | int n => rfl
    | float f =>
      by_cases h : f.ltInt 100 = true
      · simp [fmtStatCell, statDisplay, h, str_append_assoc]
      · simp [fmtStatCell, statDisplay, h, str_append_assoc]
  · intro v d hd
    rw [abs_le]
    unfold rheNat
    simp only []
    have h2 : v % d < d := Nat.mod_lt v hd
    have h1 : d * (v / d) + v % d = v := Nat.div_add_mod v d
    generalize hq : v / d = q at *
    generalize hr : v % d = r at *
    have h1' : (d : Int) * (q : Int) + (r : Int) = (v : Int) := by exact_mod_cast h1
    have h2' : ((r : Nat) : Int) < (d : Int) := by exact_mod_cast h2
    have hr0 : (0 : Int) ≤ (r : Int) := Int.ofNat_nonneg _
    have hd' : (0 : Int) < (d : Int) := by exact_mod_cast hd
    split_ifs with hA hB hC
    · have hA' : 2 * (r : Int) < (d : Int) := by exact_mod_cast hA
      constructor <;> linarith
    · have hB' : (d : Int) < 2 * (r : Int) := by exact_mod_cast hB
      constructor <;> (push_cast; linarith)
    · have hA' : (d : Int) ≤ 2 * (r : Int) := by exact_mod_cast Nat.le_of_not_lt hA
      have hB' : 2 * (r : Int) ≤ (d : Int) := by exact_mod_cast Nat.le_of_not_lt hB
      constructor <;> linarith
    · have hA' : (d : Int) ≤ 2 * (r : Int) := by exact_mod_cast Nat.le_of_not_lt hA
      have hB' : 2 * (r : Int) ≤ (d : Int) := by exact_mod_cast Nat.le_of_not_lt hB
      constructor <;> (push_cast; linarith)

/-- Witness for C2: both formatting branches instantiated — 10.2 renders as
a one-decimal percentage and the integer 35 as a plain integer string. -/
theorem stat_display_spec_witness :
    (statDisplay (.float ⟨102, 1⟩) = fmt1 ⟨102, 1⟩ ++ "%"
      ∧ oneDecimalPercent (statDisplay (.float ⟨102, 1⟩)))
    ∧ (statDisplay (.float ⟨1234, 1⟩) = fmt0 ⟨1234, 1⟩
      ∧ plainIntString (statDisplay (.float ⟨1234, 1⟩))) :=
  ⟨stat_display_spec.1 ⟨102, 1⟩ (by decide),
   stat_display_spec.2.1 ⟨1234, 1⟩ (by decide)⟩

/-- Claim C1 counterexample: pydantic validation of `Equipment` does not
behave as the claim states. An equipment record with neither `reliquary`
nor `weapon` set validates successfully (the claim says it must fail), and
a record with the `weapon` core set but a flat payload that also fits the
reliquary shape validates into the `ReliquaryFlat` variant (the claim says
a record with `weapon` set validates into `WeaponFlat`): the union is
resolved structurally, trying `ReliquaryFlat` first, with the sibling
discriminator playing no part. -/
theorem equipment_sibling_discriminator_cex :
    validate_equipment neitherCoreEquipmentJson =
      .ok { itemId := 81544, reliquary := none, weapon := none,
            flat := .inl sampleParsedReliquaryFlat }
    ∧ validate_equipment weaponCoreAmbiguousEquipmentJson =
      .ok { itemId := 13501, reliquary := none, weapon := some parsedWeaponCore,
            flat := .inl parsedAmbiguousFlat } :=
  ⟨rfl, rfl⟩

/-- Claim C1 as amended: `Equipment` validation resolves `flat`
structurally and independently of the sibling `reliquary`/`weapon` cores —
a payload that validates as `ReliquaryFlat` always yields the
`ReliquaryFlat` variant (even when it also resembles a weapon payload, and
whichever core is set), a payload that fails as `ReliquaryFlat` but
validates as `WeaponFlat` yields the `WeaponFlat` variant, and a payload
fitting neither shape fails validation; records with neither core set, or
with a flat shape not matching the core that is set, still validate. -/
theorem equipment_flat_resolution :
    (∀ (j : Json) (f : ReliquaryFlat), validateReliquaryFlat j = .ok f →
      validateFlat j = .ok (.inl f))
    ∧ (∀ (j : Json) (msg : String) (w : WeaponFlat),
        validateReliquaryFlat j = .error msg → validateWeaponFlat j = .ok w →
        validateFlat j = .ok (.inr w))
    ∧ (∀ (j : Json) (msgR msgW : String),
        validateReliquaryFlat j = .error msgR → validateWeaponFlat j = .error msgW →
        validateFlat j = .error msgW)
    ∧ validate_equipment mismatchedEquipmentJson =
        .ok { itemId := 81544, reliquary := some parsedReliquaryCore, weapon := none,
              flat := .inr parsedWeaponFlat }
    ∧ (∃ msg, validate_equipment invalidFlatEquipmentJson = .error msg) := by
  refine ⟨?_, ?_, ?_, rfl, ⟨"field required: rankLevel", rfl⟩⟩
  · intro j f h
    simp [validateFlat, h]
  · intro j msg w h1 h2
    simp [validateFlat, h1, h2, Except.map]
  · intro j msgR msgW h1 h2
    simp [validateFlat, h1, h2, Except.map]

/-- Witness for C1 (amended): a reliquary-shaped flat payload resolves to
the `ReliquaryFlat` variant. -/
theorem equipment_flat_resolution_witness :
    validateFlat reliquaryFlatJson = .ok (.inl sampleParsedReliquaryFlat) :=
  equipment_flat_resolution.1 reliquaryFlatJson sampleParsedReliquaryFlat rfl
